import Mathlib

/-!
Shallow embedding of the statistical core of the Threat-Intelligence-Service
repository (files `src/graph.py`, `src/regenerate_distributions.py`,
`src/montecarlo.py`).

Repository queries are modelled by passing the query results (node existence
flags and the lists of property values the Cypher matches would return) as
explicit arguments.  Python `None` becomes `Option`, Python exceptions become
`Except String`, Python floats become `ℚ` where the code only adds, divides
and compares (so every definition evaluates by `decide`/`rfl`), and `ℝ` where
the code calls `log`/`sqrt`/`exp`/`**`.
-/

/-- The raw evidence the graph holds for one side (a `Size` node or an
`Industry` node) of a breach-probability resolution: whether the node exists,
and the `probability` properties of the `IncidentProbability` nodes related to
it (`graph.py`, `get_probability_of_breach`). -/
structure SideData where
  node : Bool
  values : List ℚ
deriving DecidableEq, Repr

/-- The raw evidence for one side of a cost-averages resolution: whether the
node exists and the `mean`/`median` properties of the related
`IncidentCostAverages` nodes (`graph.py`, `get_incident_cost_averages`). -/
structure CostSide where
  node : Bool
  means : List ℚ
  medians : List ℚ
deriving DecidableEq, Repr

/-- Python truthiness of a number-or-None value: `None` and `0` are falsy. -/
def pyTruthy : Option ℚ → Bool
  | none => false
  | some x => x != 0

/-- Python `a or b` on number-or-None values: returns `a` when `a` is truthy,
otherwise returns `b` unchanged (so `0 or None` is `None` and `None or 0`
is `0`). -/
def pyOr : Option ℚ → Option ℚ → Option ℚ
  | some x, b => if x = 0 then b else some x
  | none, b => b

/-- One side's list of raw values collapsed to a single optional value, as in
`graph.py` lines 164–204 and 262–328: with no node the side stays `None`;
with more than one value the arithmetic mean is taken; with exactly one value
that value is used; with none the side stays `None`. -/
def resolveVals (node : Bool) (vals : List ℚ) : Option ℚ :=
  if node then
    match vals with
    | [] => none
    | [x] => some x
    | x :: y :: rest => some ((x :: y :: rest).sum / (x :: y :: rest).length)
  else none

/-- The combination applied to the two sides in `graph.py` lines 206–216 and
330–348: `if a and b: (a + b) / 2 else: a or b`, with Python truthiness. -/
def combineSides (a b : Option ℚ) : Option ℚ :=
  if pyTruthy a && pyTruthy b then
    some ((a.getD 0 + b.getD 0) / 2)
  else pyOr a b

/-- Embedding of `GraphInterface.get_probability_of_breach` (`graph.py` lines 134–216),
with the query results for the size side and the industry side passed in.
Returns `None` early when neither node exists; otherwise resolves each side
and combines them. -/
def get_probability_of_breach (s i : SideData) : Option ℚ :=
  if !s.node && !i.node then none
  else combineSides (resolveVals s.node s.values) (resolveVals i.node i.values)

/-- Embedding of `GraphInterface.get_incident_cost_averages` (`graph.py` lines 222–350).
The bare `return None` when neither node exists is the outer `none`; otherwise
the function returns the pair `(mean, median)`, each component combined from
the two sides exactly as the breach probability is. -/
def get_incident_cost_averages (s i : CostSide) : Option (Option ℚ × Option ℚ) :=
  if !s.node && !i.node then none
  else
    some
      (combineSides (resolveVals s.node s.means) (resolveVals i.node i.means),
       combineSides (resolveVals s.node s.medians) (resolveVals i.node i.medians))

/-- The filter in `graph.py` lines 91–95: of the `probabilities` vectors on
the `IncidentBaseFrequencyProbabilities` nodes, keep only those whose length
is `len(boundaries) - 1` (the comparison is over `ℤ`, as in Python, so an
empty boundary list matches no vector). -/
def qualifyingVectors (boundaries : List ℚ) (vecs : List (List ℚ)) : List (List ℚ) :=
  vecs.filter fun v => (v.length : ℤ) = (boundaries.length : ℤ) - 1

/-- Model of `np.mean(matrix[:, i])`: the mean of column `i` of a list of rows, an
`IndexError` when some row is too short (`graph.py` line 102). -/
def columnMean (mat : List (List ℚ)) (i : ℕ) : Except String ℚ :=
  match mat.mapM (fun row => row[i]?) with
  | none => Except.error "IndexError"
  | some col => Except.ok (col.sum / col.length)

/-- The averaging step of `graph.py` lines 98–104.  When more than one
qualifying vector exists, the code rebinds `base_frequency_probabilities` to
`[np.mean(arr[:, i]) for i in range(len(boundaries))]` — a flat list of
scalars (`Sum.inr`); otherwise the list of vectors is left unchanged
(`Sum.inl`). -/
def averagedBaseFrequencies (boundaries : List ℚ) (qual : List (List ℚ)) :
    Except String (List (List ℚ) ⊕ List ℚ) :=
  if 1 < qual.length then
    ((List.range boundaries.length).mapM (columnMean qual)).map Sum.inr
  else Except.ok (Sum.inl qual)

/-- The survival-series construction of `graph.py` lines 114–127: the leading
`(100 - p) / 100` term followed by `p * q / 100` for each base probability
`q`, with the `Mismatched boundaries!` check. -/
def buildBreachVector (boundaries : List ℚ) (p : ℚ) (base : List ℚ) :
    Except String (Option (List ℚ)) :=
  let probs := ((100 - p) / 100) :: base.map fun q => p * q / 100
  if probs.length = boundaries.length then Except.ok (some probs)
  else Except.error "Mismatched boundaries!"

/-- Embedding of `GraphInterface.get_incident_frequency_probabilities` (`graph.py` lines
63–130).  `vecs` is the list of `probabilities` vectors the
`IncidentBaseFrequencyProbabilities` query returns and `p` the result of
`get_probability_of_breach`.  After the (possible) averaging step the code
takes `base_frequency_probabilities[0]` and iterates over it: on the
un-averaged list of vectors that is the first vector (an `IndexError` when
there is none); on the averaged flat list it is a scalar, and iterating a
scalar is a `TypeError`. -/
def get_incident_frequency_probabilities (boundaries : List ℚ)
    (vecs : List (List ℚ)) (p : Option ℚ) : Except String (Option (List ℚ)) :=
  match averagedBaseFrequencies boundaries (qualifyingVectors boundaries vecs) with
  | Except.error e => Except.error e
  | Except.ok (Sum.inl vs) =>
    if pyTruthy p then
      match vs with
      | [] => Except.error "IndexError"
      | base :: _ => buildBreachVector boundaries (p.getD 0) base
    else Except.ok none
  | Except.ok (Sum.inr _) =>
    if pyTruthy p then Except.error "TypeError"
    else Except.ok none

/-- What `_get_frequency_distribution` / `_get_costs_distribution` hand back
to their caller: either the parameter dictionary (keys a and b, resp. mean
and stddev) or the Python 2-tuple `(None, None)` returned
on the no-match path (`graph.py` lines 560 and 609). -/
inductive DistLookup where
  | found : ℚ → ℚ → DistLookup
  | nonePair : DistLookup
deriving DecidableEq, Repr

/-- Embedding of `GraphInterface._get_frequency_distribution` (`graph.py` lines 531–574),
with `nodes` the `(a, b)` pairs its Cypher query returns for the requested
pairing.  No match: a fatal `No fallback node found!` for `("All", "All")`,
the `(None, None)` tuple otherwise.  Otherwise the guard `len(nodes) > 0` is
always true, so the parameters are always averaged (the `a[0]` branch is
dead, kept here with the head of the list). -/
def get_frequency_distribution (size industry : String) (nodes : List (ℚ × ℚ)) :
    Except String DistLookup :=
  if nodes.length = 0 then
    if size = "All" ∧ industry = "All" then Except.error "No fallback node found!"
    else Except.ok DistLookup.nonePair
  else
    if 0 < nodes.length then
      Except.ok (DistLookup.found
        ((nodes.map Prod.fst).sum / nodes.length)
        ((nodes.map Prod.snd).sum / nodes.length))
    else
      Except.ok (DistLookup.found ((nodes.map Prod.fst).headD 0)
        ((nodes.map Prod.snd).headD 0))

/-- Embedding of `GraphInterface._get_costs_distribution` (`graph.py` lines 580–623),
with `nodes` the `(mean, stddev)` pairs its query returns.  Identical to the
frequency version except that a single node is returned unaveraged (the
guard here is `len(nodes) > 1`). -/
def get_costs_distribution (size industry : String) (nodes : List (ℚ × ℚ)) :
    Except String DistLookup :=
  if nodes.length = 0 then
    if size = "All" ∧ industry = "All" then Except.error "No fallback node found!"
    else Except.ok DistLookup.nonePair
  else
    if 1 < nodes.length then
      Except.ok (DistLookup.found
        ((nodes.map Prod.fst).sum / nodes.length)
        ((nodes.map Prod.snd).sum / nodes.length))
    else
      Except.ok (DistLookup.found ((nodes.map Prod.fst).headD 0)
        ((nodes.map Prod.snd).headD 0))

/-- The debug access `dist["a"]` in `graph.py` line 407, evaluated eagerly as
an argument of `log.debug`: fine on the parameter dictionary, a `TypeError`
on the `(None, None)` tuple (string subscripts are not valid tuple indices). -/
def pySubscriptA : DistLookup → Except String ℚ
  | DistLookup.found a _ => Except.ok a
  | DistLookup.nonePair =>
      Except.error "TypeError: tuple indices must be integers or slices, not str"

/-- Embedding of `GraphInterface.get_incident_frequency_distribution` (`graph.py` lines
356–410).  `sizeNode`/`industryNode` say whether the `Size`/`Industry` nodes
exist and `store` gives the stored `(a, b)` pairs per pairing.  When neither
node exists the fallback `("All", "All")` lookup is returned directly;
otherwise the exact lookup runs and — since both a dictionary and a 2-tuple
are `not None` — the `dist["a"]` debug access is evaluated before the result
is returned. -/
def get_incident_frequency_distribution (sizeNode industryNode : Bool)
    (size industry : String) (store : String → String → List (ℚ × ℚ)) :
    Except String DistLookup :=
  if !sizeNode && !industryNode then
    get_frequency_distribution "All" "All" (store "All" "All")
  else
    match get_frequency_distribution size industry (store size industry) with
    | Except.error e => Except.error e
    | Except.ok dist =>
      match pySubscriptA dist with
      | Except.error e => Except.error e
      | Except.ok _ => Except.ok dist

/-- The driver slice of `_generate_new_incident_costs_distribution`
(`regenerate_distributions.py` lines 135–198) that decides the tally:
unpacking the result of `get_incident_cost_averages` into
`incident_mean_cost, incident_median_cost` is a `TypeError` when the result
is a bare `None`; a `None` mean or median yields 0 distributions generated;
otherwise the log-normal fit runs, the node is persisted and 1 is returned. -/
def generate_new_incident_costs_distribution (s i : CostSide) : Except String ℕ :=
  match get_incident_cost_averages s i with
  | none => Except.error "TypeError: cannot unpack non-iterable NoneType object"
  | some (mean, median) =>
    if mean = none ∨ median = none then Except.ok 0
    else Except.ok 1

/-- The `log_stddev` computed by `_generate_new_incident_costs_distribution`
(`regenerate_distributions.py` lines 166–173), with the conditional
expression parenthesised exactly as Python parses it:
`2 * ((np.log(mean) - 0) if median == 0 else np.log(median))` — the
subtraction binds tighter than the conditional, so for a non-zero median the
mean is not involved at all. -/
noncomputable def fit_log_stddev (mean median : ℝ) : ℝ :=
  Real.sqrt (2 * (if median = 0 then Real.log mean - 0 else Real.log median))

/-- The persisted `stddev = np.exp(1) ** log_stddev` (`regenerate_distributions.py` line
174); the pair persisted on the `IncidentCostsDistribution` node is
`(mean, fit_stddev mean median)`. -/
noncomputable def fit_stddev (mean median : ℝ) : ℝ :=
  Real.exp 1 ^ fit_log_stddev mean median

/-- The constant `MAX_ANNUAL_INCIDENTS` (`montecarlo.py` line 34). -/
def MAX_ANNUAL_INCIDENTS : ℤ := 8000

/-- Python's `int()` on a float: truncation toward zero. -/
noncomputable def pyInt (x : ℝ) : ℤ := if 0 ≤ x then ⌊x⌋ else ⌈x⌉

/-- Embedding of `_calculate_num_of_incidents` (`montecarlo.py` lines 70–84) with the
uniform draw `u` made an explicit argument:
`num = b / (1 - u) ** (1 / a)`, returned as `int(num)` when
`num <= MAX_ANNUAL_INCIDENTS` and as `MAX_ANNUAL_INCIDENTS` otherwise. -/
noncomputable def calculate_num_of_incidents (a b u : ℝ) : ℤ :=
  let num := b / (1 - u) ^ ((1 : ℝ) / a)
  if num ≤ (MAX_ANNUAL_INCIDENTS : ℝ) then pyInt num else MAX_ANNUAL_INCIDENTS

/-- The constant `COMPANY_VALUE` (`montecarlo.py` line 37). -/
def COMPANY_VALUE : ℕ := 100000

/-- The constant `LEC_PRECISION = math.floor(COMPANY_VALUE / 30)` (`montecarlo.py` line
41): 3333. -/
def LEC_PRECISION : ℕ := COMPANY_VALUE / 30

/-- Minimum of a list of samples (`np.histogram`'s default lower range). -/
def listMin : List ℚ → ℚ
  | [] => 0
  | x :: xs => xs.foldl min x

/-- Maximum of a list of samples (`np.histogram`'s default upper range). -/
def listMax : List ℚ → ℚ
  | [] => 0
  | x :: xs => xs.foldl max x

/-- Model of `np.histogram(samples, bins)`: counts over `bins` equal-width intervals
spanning `[min samples, max samples]`, each half-open except the last, which
is closed. -/
def npHistogram (samples : List ℚ) (bins : ℕ) : List ℕ :=
  let lo := listMin samples
  let hi := listMax samples
  (List.range bins).map fun i =>
    let left := lo + (hi - lo) * i / bins
    let right := lo + (hi - lo) * (i + 1) / bins
    if i + 1 = bins then samples.countP fun x => decide (left ≤ x ∧ x ≤ right)
    else samples.countP fun x => decide (left ≤ x ∧ x < right)

/-- The loss-exceedance curve of `montecarlo.py` lines 240–241:
`hist, edges = np.histogram(sum_costs, bins=LEC_PRECISION)` followed by
`cumrev = np.cumsum(hist[::-1])[::-1] * 100 / len(sum_costs)`, so entry `i`
is the number of trials falling in bin `i` or any later bin, as a percentage
of all trials, plotted against bin `i`'s lower edge. -/
def loss_exceedance_curve (samples : List ℚ) : List ℚ :=
  let hist := npHistogram samples LEC_PRECISION
  (List.range hist.length).map fun i =>
    ((hist.drop i).sum : ℚ) * 100 / samples.length

/-! Helper lemmas about the resolver combination. -/

theorem resolveVals_node_of_some {node : Bool} {vals : List ℚ} {x : ℚ}
    (h : resolveVals node vals = some x) : node = true := by
  cases node
  · simp [resolveVals] at h
  · rfl

theorem combineSides_some_some {x y : ℚ} (hx : x ≠ 0) (hy : y ≠ 0) :
    combineSides (some x) (some y) = some ((x + y) / 2) := by
  simp [combineSides, pyTruthy, hx, hy]

theorem pyTruthy_eq_false {a : Option ℚ} :
    pyTruthy a = false ↔ a = none ∨ a = some 0 := by
  cases a with
  | none => simp [pyTruthy]
  | some x => simp [pyTruthy]

theorem pyTruthy_none : pyTruthy none = false := rfl

theorem combineSides_falsy_left {a b : Option ℚ} (ha : pyTruthy a = false) :
    combineSides a b = b := by
  rcases pyTruthy_eq_false.mp ha with h | h <;> subst h <;>
    simp [combineSides, pyTruthy, pyOr]

theorem combineSides_truthy_falsy {x : ℚ} {b : Option ℚ} (hx : x ≠ 0)
    (hb : pyTruthy b = false) : combineSides (some x) b = some x := by
  have hx' : pyTruthy (some x) = true := by simp [pyTruthy, hx]
  simp [combineSides, hx', hb, pyOr, hx]

theorem get_probability_of_breach_eq (s i : SideData) :
    get_probability_of_breach s i
      = combineSides (resolveVals s.node s.values) (resolveVals i.node i.values) := by
  unfold get_probability_of_breach
  cases hs : s.node <;> cases hi : i.node <;>
    simp [hs, hi, resolveVals, combineSides, pyTruthy, pyOr]

theorem get_incident_cost_averages_eq (s i : CostSide)
    (h : s.node = true ∨ i.node = true) :
    get_incident_cost_averages s i
      = some
          (combineSides (resolveVals s.node s.means) (resolveVals i.node i.means),
           combineSides (resolveVals s.node s.medians)
             (resolveVals i.node i.medians)) := by
  rcases h with h | h <;> simp [get_incident_cost_averages, h]

/-- C2, counterexample: with both sides present — the size side holding the
single probability 0 and the industry side the single probability 5 — the
resolver returns 5, not the arithmetic mean (0 + 5) / 2 the claim requires,
because Python's `if size_probability and industry_probability` treats the
0 as falsy. -/
theorem C2_counterexample :
    get_probability_of_breach ⟨true, [0]⟩ ⟨true, [5]⟩ = some 5 ∧
    some ((5 : ℚ)) ≠ some (((0 : ℚ) + 5) / 2) := by
  constructor
  · norm_num [get_probability_of_breach, combineSides, resolveVals, pyTruthy, pyOr]
  · norm_num

/-- C2 (amended): breach-probability resolution and cost-averages resolution
return the arithmetic mean of the size-side and industry-side values when
both sides resolve to non-zero values (independently for the probability,
the cost mean and the cost median); exactly that side's value when only one
side resolves to a value and that value is non-zero (in either direction,
for each of the three quantities); and None when both sides resolve to
nothing (per component for the cost mean and median; a bare None when
neither node exists). -/
theorem C2_averaging_amended (s i : SideData) (cs ci : CostSide) :
    (∀ x y : ℚ, x ≠ 0 → y ≠ 0 → resolveVals s.node s.values = some x →
      resolveVals i.node i.values = some y →
      get_probability_of_breach s i = some ((x + y) / 2)) ∧
    (∀ x : ℚ, x ≠ 0 → resolveVals s.node s.values = some x →
      resolveVals i.node i.values = none →
      get_probability_of_breach s i = some x) ∧
    (∀ y : ℚ, y ≠ 0 → resolveVals s.node s.values = none →
      resolveVals i.node i.values = some y →
      get_probability_of_breach s i = some y) ∧
    (resolveVals s.node s.values = none → resolveVals i.node i.values = none →
      get_probability_of_breach s i = none) ∧
    (∀ x y : ℚ, x ≠ 0 → y ≠ 0 → resolveVals cs.node cs.means = some x →
      resolveVals ci.node ci.means = some y →
      (get_incident_cost_averages cs ci).map Prod.fst = some (some ((x + y) / 2))) ∧
    (∀ x : ℚ, x ≠ 0 → resolveVals cs.node cs.means = some x →
      resolveVals ci.node ci.means = none →
      (get_incident_cost_averages cs ci).map Prod.fst = some (some x)) ∧
    (∀ y : ℚ, y ≠ 0 → resolveVals cs.node cs.means = none →
      resolveVals ci.node ci.means = some y →
      (get_incident_cost_averages cs ci).map Prod.fst = some (some y)) ∧
    (∀ x y : ℚ, x ≠ 0 → y ≠ 0 → resolveVals cs.node cs.medians = some x →
      resolveVals ci.node ci.medians = some y →
      (get_incident_cost_averages cs ci).map Prod.snd = some (some ((x + y) / 2))) ∧
    (∀ x : ℚ, x ≠ 0 → resolveVals cs.node cs.medians = some x →
      resolveVals ci.node ci.medians = none →
      (get_incident_cost_averages cs ci).map Prod.snd = some (some x)) ∧
    (∀ y : ℚ, y ≠ 0 → resolveVals cs.node cs.medians = none →
      resolveVals ci.node ci.medians = some y →
      (get_incident_cost_averages cs ci).map Prod.snd = some (some y)) ∧
    (cs.node = true ∨ ci.node = true →
      resolveVals cs.node cs.means = none → resolveVals ci.node ci.means = none →
      (get_incident_cost_averages cs ci).map Prod.fst = some none) ∧
    (cs.node = true ∨ ci.node = true →
      resolveVals cs.node cs.medians = none →
      resolveVals ci.node ci.medians = none →
      (get_incident_cost_averages cs ci).map Prod.snd = some none) ∧
    (cs.node = false → ci.node = false →
      get_incident_cost_averages cs ci = none) := by
  refine ⟨?_, ?_, ?_, ?_, ?_, ?_, ?_, ?_, ?_, ?_, ?_, ?_, ?_⟩
  · intro x y hx hy hsx hiy
    rw [get_probability_of_breach_eq, hsx, hiy, combineSides_some_some hx hy]
  · intro x hx hsx hin
    rw [get_probability_of_breach_eq, hsx, hin,
      combineSides_truthy_falsy hx (by simp [pyTruthy])]
  · intro y hy hsn hiy
    rw [get_probability_of_breach_eq, hsn, hiy,
      combineSides_falsy_left (by simp [pyTruthy])]
  · intro hsn hin
    rw [get_probability_of_breach_eq, hsn, hin,
      combineSides_falsy_left (by simp [pyTruthy])]
  · intro x y hx hy hsx hiy
    rw [get_incident_cost_averages_eq cs ci
      (Or.inl (resolveVals_node_of_some hsx)), hsx, hiy,
      combineSides_some_some hx hy]
    rfl
  · intro x hx hsx hin
    rw [get_incident_cost_averages_eq cs ci
      (Or.inl (resolveVals_node_of_some hsx)), hsx, hin,
      combineSides_truthy_falsy hx (by simp [pyTruthy])]
    rfl
  · intro y hy hsn hiy
    rw [get_incident_cost_averages_eq cs ci
      (Or.inr (resolveVals_node_of_some hiy)), hsn, hiy,
      combineSides_falsy_left (by simp [pyTruthy])]
    rfl
  · intro x y hx hy hsx hiy
    rw [get_incident_cost_averages_eq cs ci
      (Or.inl (resolveVals_node_of_some hsx)), hsx, hiy,
      combineSides_some_some hx hy]
    rfl
  · intro x hx hsx hin
    rw [get_incident_cost_averages_eq cs ci
      (Or.inl (resolveVals_node_of_some hsx)), hsx, hin,
      combineSides_truthy_falsy hx (by simp [pyTruthy])]
    rfl
  · intro y hy hsn hiy
    rw [get_incident_cost_averages_eq cs ci
      (Or.inr (resolveVals_node_of_some hiy)), hsn, hiy,
      combineSides_falsy_left pyTruthy_none]
    rfl
  · intro hn hsn hin
    rw [get_incident_cost_averages_eq cs ci hn, hsn, hin,
      combineSides_falsy_left pyTruthy_none]
    rfl
  · intro hn hsn hin
    rw [get_incident_cost_averages_eq cs ci hn, hsn, hin,
      combineSides_falsy_left pyTruthy_none]
    rfl
  · intro hcs hci
    simp [get_incident_cost_averages, hcs, hci]

/-- Witness for C2 (amended) at concrete inputs: sides (4) and (6) average
to 5; a lone non-zero side (7) is returned as is; cost means (10) and (20)
average to 15. -/
theorem C2_witness :
    get_probability_of_breach ⟨true, [4]⟩ ⟨true, [6]⟩ = some 5 ∧
    get_probability_of_breach ⟨true, [7]⟩ ⟨false, []⟩ = some 7 ∧
    (get_incident_cost_averages ⟨true, [10], []⟩ ⟨true, [20], []⟩).map Prod.fst
      = some (some 15) := by
  refine ⟨?_, ?_, ?_⟩
  · have h := (C2_averaging_amended ⟨true, [4]⟩ ⟨true, [6]⟩ ⟨true, [], []⟩
      ⟨true, [], []⟩).1 4 6 (by norm_num) (by norm_num) rfl rfl
    rw [h]; norm_num
  · exact (C2_averaging_amended ⟨true, [7]⟩ ⟨false, []⟩ ⟨true, [], []⟩
      ⟨true, [], []⟩).2.1 7 (by norm_num) rfl rfl
  · have h := (C2_averaging_amended ⟨true, []⟩ ⟨true, []⟩ ⟨true, [10], []⟩
      ⟨true, [20], []⟩).2.2.2.2.1 10 20 (by norm_num) (by norm_num) rfl rfl
    rw [h]; norm_num

/-- C10, counterexample: the size side resolves to nothing and the industry
side's only probability is 0 — the only value present on either side is a 0,
yet the resolver returns 0 rather than the None the claim requires, because
`size_probability or industry_probability` evaluates `None or 0` to `0`. -/
theorem C10_counterexample :
    get_probability_of_breach ⟨true, []⟩ ⟨true, [0]⟩ = some 0 ∧
    (some (0 : ℚ)) ≠ none := by
  exact ⟨rfl, by simp⟩

/-- C10 (amended): in breach-probability and cost-averages resolution a side
whose resolved value equals 0 is treated as absent when deciding whether to
average: if the other side holds a non-zero value V the resolver returns V,
not (0 + V) / 2.  When no non-zero value is present, however, the result is
the industry side's resolved value as-is (so a lone 0 on the size side
yields None, but a 0 on the industry side yields 0, not None).  The same
holds independently for the cost mean and median. -/
theorem C10_zero_as_absent (s i : SideData) (cs ci : CostSide) :
    (resolveVals s.node s.values = none ∨ resolveVals s.node s.values = some 0 →
      get_probability_of_breach s i = resolveVals i.node i.values) ∧
    (∀ x : ℚ, x ≠ 0 → resolveVals s.node s.values = some x →
      (resolveVals i.node i.values = none ∨
        resolveVals i.node i.values = some 0) →
      get_probability_of_breach s i = some x) ∧
    (cs.node = true ∨ ci.node = true →
      resolveVals cs.node cs.means = none ∨ resolveVals cs.node cs.means = some 0 →
      (get_incident_cost_averages cs ci).map Prod.fst
        = some (resolveVals ci.node ci.means)) ∧
    (∀ x : ℚ, x ≠ 0 → resolveVals cs.node cs.means = some x →
      (resolveVals ci.node ci.means = none ∨
        resolveVals ci.node ci.means = some 0) →
      (get_incident_cost_averages cs ci).map Prod.fst = some (some x)) ∧
    (cs.node = true ∨ ci.node = true →
      resolveVals cs.node cs.medians = none ∨
        resolveVals cs.node cs.medians = some 0 →
      (get_incident_cost_averages cs ci).map Prod.snd
        = some (resolveVals ci.node ci.medians)) ∧
    (∀ x : ℚ, x ≠ 0 → resolveVals cs.node cs.medians = some x →
      (resolveVals ci.node ci.medians = none ∨
        resolveVals ci.node ci.medians = some 0) →
      (get_incident_cost_averages cs ci).map Prod.snd = some (some x)) := by
  refine ⟨?_, ?_, ?_, ?_, ?_, ?_⟩
  · intro hs
    rw [get_probability_of_breach_eq,
      combineSides_falsy_left (pyTruthy_eq_false.mpr hs)]
  · intro x hx hsx hi
    rw [get_probability_of_breach_eq, hsx,
      combineSides_truthy_falsy hx (pyTruthy_eq_false.mpr hi)]
  · intro hn hs
    rw [get_incident_cost_averages_eq cs ci hn,
      combineSides_falsy_left (pyTruthy_eq_false.mpr hs)]
    rfl
  · intro x hx hsx hi
    rw [get_incident_cost_averages_eq cs ci
      (Or.inl (resolveVals_node_of_some hsx)), hsx,
      combineSides_truthy_falsy hx (pyTruthy_eq_false.mpr hi)]
    rfl
  · intro hn hs
    rw [get_incident_cost_averages_eq cs ci hn,
      combineSides_falsy_left (pyTruthy_eq_false.mpr hs)]
    rfl
  · intro x hx hsx hi
    rw [get_incident_cost_averages_eq cs ci
      (Or.inl (resolveVals_node_of_some hsx)), hsx,
      combineSides_truthy_falsy hx (pyTruthy_eq_false.mpr hi)]
    rfl

/-- Witness for C10 (amended) at concrete inputs: a 0 on the size side with
a non-zero 9 on the industry side yields 9; a non-zero 8 on the size side
with a 0 on the industry side yields 8; a lone 0 on the size side yields
None. -/
theorem C10_witness :
    get_probability_of_breach ⟨true, [0]⟩ ⟨true, [9]⟩ = some 9 ∧
    get_probability_of_breach ⟨true, [8]⟩ ⟨true, [0]⟩ = some 8 ∧
    get_probability_of_breach ⟨true, [0]⟩ ⟨false, []⟩ = none := by
  refine ⟨?_, ?_, ?_⟩
  · exact (C10_zero_as_absent ⟨true, [0]⟩ ⟨true, [9]⟩ ⟨true, [], []⟩
      ⟨true, [], []⟩).1 (Or.inr rfl)
  · exact (C10_zero_as_absent ⟨true, [8]⟩ ⟨true, [0]⟩ ⟨true, [], []⟩
      ⟨true, [], []⟩).2.1 8 (by norm_num) rfl (Or.inr rfl)
  · exact (C10_zero_as_absent ⟨true, [0]⟩ ⟨false, []⟩ ⟨true, [], []⟩
      ⟨true, [], []⟩).1 (Or.inr rfl)

/-- C1: at the failing input mean = 1000, median = 1000 the code's cost fit
computes log_stddev = sqrt(2 × log(median)) — not
sqrt(2 × (log(mean) − log(median))) — because the subtraction in
`np.log(mean) - 0 if median == 0 else np.log(median)` binds tighter than the
conditional.  The persisted stddev is exp(sqrt(2 log 1000)) > 1, where the
claim (and the spec's concrete scenario) require exactly 1.  The median = 0
branch does agree with the claim: log_stddev = sqrt(2 × log(mean)). -/
theorem C1_cost_fit_divergence :
    fit_stddev 1000 1000 = Real.exp (Real.sqrt (2 * Real.log 1000)) ∧
    1 < fit_stddev 1000 1000 ∧
    fit_stddev 1000 1000 ≠ 1 ∧
    fit_log_stddev 1000 0 = Real.sqrt (2 * Real.log 1000) := by
  have hmed : (1000 : ℝ) ≠ 0 := by norm_num
  have h1 : fit_log_stddev 1000 1000 = Real.sqrt (2 * Real.log 1000) := by
    simp [fit_log_stddev, hmed]
  have h2 : fit_stddev 1000 1000 = Real.exp (Real.sqrt (2 * Real.log 1000)) := by
    rw [fit_stddev, h1, Real.exp_one_rpow]
  have hlog : 0 < Real.log 1000 := Real.log_pos (by norm_num)
  have hsq : 0 < Real.sqrt (2 * Real.log 1000) :=
    Real.sqrt_pos.mpr (by linarith)
  have h3 : 1 < fit_stddev 1000 1000 := by
    rw [h2]
    calc (1 : ℝ) = Real.exp 0 := Real.exp_zero.symm
    _ < Real.exp (Real.sqrt (2 * Real.log 1000)) := Real.exp_lt_exp.mpr hsq
  exact ⟨h2, h3, ne_of_gt h3, by simp [fit_log_stddev]⟩

/-- C3: a segment whose size and industry nodes exist but carry no cost
evidence resolves to a (None, None) pair, and the fitter tallies 0 generated
distributions without raising — but a segment for which neither node exists
makes `get_incident_cost_averages` return a bare None, and unpacking it into
`incident_mean_cost, incident_median_cost` raises a TypeError instead of
tallying 0, contradicting the claim on that input. -/
theorem C3_missing_cost_evidence :
    generate_new_incident_costs_distribution ⟨true, [], []⟩ ⟨true, [], []⟩
      = Except.ok 0 ∧
    generate_new_incident_costs_distribution ⟨true, [], []⟩ ⟨false, [], []⟩
      = Except.ok 0 ∧
    generate_new_incident_costs_distribution ⟨true, [5], []⟩ ⟨false, [], []⟩
      = Except.ok 0 ∧
    generate_new_incident_costs_distribution ⟨false, [], []⟩ ⟨false, [], []⟩
      = Except.error "TypeError: cannot unpack non-iterable NoneType object" :=
  ⟨rfl, rfl, rfl, rfl⟩

/-- C4: at the failing input — size node "Micro" exists, industry node does
not, and the store holds no IncidentFrequencyDistribution for the pairing —
resolution does not return the bare None the driver's "no data found" branch
tests for: `_get_frequency_distribution` returns the tuple (None, None),
which is `not None`, so the eagerly evaluated debug access `dist["a"]`
raises a TypeError and the run halts.  (And when neither node exists the
resolver returns the fallback ("All", "All") distribution rather than None,
so the driver's branch is unreachable on that path too.) -/
theorem C4_driver_typeerror :
    get_incident_frequency_distribution true false "Micro" "IT"
        (fun s i => if s = "All" ∧ i = "All" then [(2, 3)] else [])
      = Except.error "TypeError: tuple indices must be integers or slices, not str" ∧
    get_incident_frequency_distribution false false "Micro" "IT"
        (fun s i => if s = "All" ∧ i = "All" then [(2, 3)] else [])
      = Except.ok (DistLookup.found 2 3) := by
  constructor
  · rfl
  · norm_num [get_incident_frequency_distribution, get_frequency_distribution]

/-- C6: at the failing input — two qualifying base-frequency vectors
[0.7, 0.3] and [0.5, 0.5] against boundaries of length 3 — the averaging
step raises an IndexError instead of producing the element-wise average,
because `range(len(boundaries))` runs one column past the end of vectors of
length len(boundaries) − 1. -/
theorem C6_averaging_indexerror :
    (qualifyingVectors [0, 1, 8000] [[7/10, 3/10], [1/2, 1/2]]).length = 2 ∧
    get_incident_frequency_probabilities [0, 1, 8000]
        [[7/10, 3/10], [1/2, 1/2]] (some 50)
      = Except.error "IndexError" :=
  ⟨rfl, rfl⟩

/-- C7: requesting the frequency or the costs distribution for the universal
("All", "All") segment when the store holds no matching node raises the
fatal `No fallback node found!` error, while an empty result for any other
pairing is the non-fatal absent result (the (None, None) return). -/
theorem C7_fallback_fatal (size industry : String)
    (h : ¬(size = "All" ∧ industry = "All")) :
    get_frequency_distribution "All" "All" []
      = Except.error "No fallback node found!" ∧
    get_costs_distribution "All" "All" []
      = Except.error "No fallback node found!" ∧
    get_frequency_distribution size industry [] = Except.ok DistLookup.nonePair ∧
    get_costs_distribution size industry [] = Except.ok DistLookup.nonePair := by
  refine ⟨rfl, rfl, ?_, ?_⟩
  · simp [get_frequency_distribution, h]
  · simp [get_costs_distribution, h]

/-- Witness for C7 at the concrete non-universal pairing ("Micro", "All"). -/
theorem C7_witness :
    ¬("Micro" = "All" ∧ "All" = "All") ∧
    get_frequency_distribution "Micro" "All" [] = Except.ok DistLookup.nonePair ∧
    get_costs_distribution "Micro" "All" [] = Except.ok DistLookup.nonePair := by
  refine ⟨by decide, ?_, ?_⟩
  · exact (C7_fallback_fatal "Micro" "All" (by decide)).2.2.1
  · exact (C7_fallback_fatal "Micro" "All" (by decide)).2.2.2

/-- C5, counterexample: at probability_of_breach p = 0 — inside the claim's
0–100 range, and reachable since breach resolution can return 0 — the code's
`if probability_of_breach:` test is falsy, so the resolver returns None
instead of the claimed vector [(100 − 0)/100, 0·q1/100, ..., 0·qk/100]. -/
theorem C5_counterexample :
    get_incident_frequency_probabilities [0, 1, 8000] [[7/10, 3/10]] (some 0)
      = Except.ok none ∧
    (Except.ok none : Except String (Option (List ℚ)))
      ≠ Except.ok (some [(100 - 0) / 100, 0 * (7/10) / 100, 0 * (3/10) / 100]) := by
  refine ⟨rfl, by simp⟩

/-- C5 (amended): given a non-zero probability_of_breach p and a single
qualifying base probability vector [q1..qk], the resolver returns the
probability vector [(100 − p)/100, p·q1/100, ..., p·qk/100], whose length
equals the boundary count (so the `Mismatched boundaries!` check passes);
at p = 0 the truthiness test fails and the resolver returns None instead. -/
theorem C5_survival_series (boundaries : List ℚ) (vecs : List (List ℚ))
    (p : ℚ) (base : List ℚ)
    (hq : qualifyingVectors boundaries vecs = [base]) (hp : p ≠ 0) :
    get_incident_frequency_probabilities boundaries vecs (some p)
      = Except.ok (some (((100 - p) / 100) :: base.map fun q => p * q / 100)) ∧
    (((100 - p) / 100) :: base.map fun q => p * q / 100).length
      = boundaries.length := by
  have hmem : base ∈ qualifyingVectors boundaries vecs := by
    rw [hq]; exact List.mem_singleton.mpr rfl
  have hlen : (base.length : ℤ) = (boundaries.length : ℤ) - 1 := by
    have h := (List.mem_filter.mp hmem).2
    simpa using h
  have hblen : base.length + 1 = boundaries.length := by omega
  have hlist : (((100 - p) / 100) :: base.map fun q => p * q / 100).length
      = boundaries.length := by
    simp [← hblen]
  refine ⟨?_, hlist⟩
  unfold get_incident_frequency_probabilities
  rw [hq]
  have havg : averagedBaseFrequencies boundaries [base]
      = Except.ok (Sum.inl [base]) := by
    simp [averagedBaseFrequencies]
  rw [havg]
  simp only [pyTruthy, hp, ne_eq, not_false_eq_true, bne_iff_ne, if_true]
  simp [buildBreachVector, Option.getD, hlist]

/-- Witness for C5 at the spec's concrete scenario: boundaries
[0, 1, 8000], the single qualifying base vector [0.7, 0.3] and
probability_of_breach 50 yield exactly [0.5, 0.35, 0.15]. -/
theorem C5_witness :
    qualifyingVectors [0, 1, 8000] [[7/10, 3/10]] = [[7/10, 3/10]] ∧
    (50 : ℚ) ≠ 0 ∧
    get_incident_frequency_probabilities [0, 1, 8000] [[7/10, 3/10]] (some 50)
      = Except.ok (some [1/2, 7/20, 3/20]) := by
  refine ⟨rfl, by norm_num, ?_⟩
  have h := (C5_survival_series [0, 1, 8000] [[7/10, 3/10]] 50 [7/10, 3/10]
    rfl (by norm_num)).1
  rw [h]
  norm_num

/-- C8: for distribution parameters a > 0, b > 0 and a uniform draw
u ∈ [0, 1), the sampled count b / (1 − u)^(1/a) is capped at
MAX_ANNUAL_INCIDENTS = 8000, values at or below the cap are truncated to an
integer (truncation equals the floor, the draw being positive), and the
returned count never exceeds the maximum. -/
theorem C8_incident_cap (a b u : ℝ) (ha : 0 < a) (hb : 0 < b)
    (hu0 : 0 ≤ u) (hu1 : u < 1) :
    calculate_num_of_incidents a b u ≤ MAX_ANNUAL_INCIDENTS ∧
    (b / (1 - u) ^ ((1 : ℝ) / a) ≤ (MAX_ANNUAL_INCIDENTS : ℝ) →
      calculate_num_of_incidents a b u = ⌊b / (1 - u) ^ ((1 : ℝ) / a)⌋) := by
  have hbase : (0 : ℝ) < 1 - u := by linarith
  have hpow : (0 : ℝ) < (1 - u) ^ ((1 : ℝ) / a) := Real.rpow_pos_of_pos hbase _
  have hnum : (0 : ℝ) < b / (1 - u) ^ ((1 : ℝ) / a) := div_pos hb hpow
  constructor
  · unfold calculate_num_of_incidents
    by_cases hle : b / (1 - u) ^ ((1 : ℝ) / a) ≤ (MAX_ANNUAL_INCIDENTS : ℝ)
    · rw [if_pos hle]
      unfold pyInt
      rw [if_pos (le_of_lt hnum)]
      calc ⌊b / (1 - u) ^ ((1 : ℝ) / a)⌋
          ≤ ⌊(MAX_ANNUAL_INCIDENTS : ℝ)⌋ := Int.floor_le_floor hle
        _ = MAX_ANNUAL_INCIDENTS := Int.floor_intCast _
    · rw [if_neg hle]
  · intro hle
    unfold calculate_num_of_incidents pyInt
    rw [if_pos hle, if_pos (le_of_lt hnum)]

/-- Witness for C8 at the concrete input a = 1, b = 100, u = 0: the sampled
count is 100/(1 − 0)^1 = 100, below the cap, and the returned value is
⌊100⌋ = 100 ≤ 8000. -/
theorem C8_witness :
    (0 : ℝ) < 1 ∧ (0 : ℝ) < 100 ∧ (0 : ℝ) ≤ 0 ∧ (0 : ℝ) < 1 ∧
    calculate_num_of_incidents 1 100 0 ≤ MAX_ANNUAL_INCIDENTS ∧
    calculate_num_of_incidents 1 100 0 = 100 := by
  have hsimp : (100 : ℝ) / ((1 : ℝ) - 0) ^ ((1 : ℝ) / 1) = 100 := by
    norm_num
  refine ⟨by norm_num, by norm_num, le_refl 0, by norm_num, ?_, ?_⟩
  · exact (C8_incident_cap 1 100 0 (by norm_num) (by norm_num) (le_refl 0)
      (by norm_num)).1
  · have h := (C8_incident_cap 1 100 0 (by norm_num) (by norm_num) (le_refl 0)
      (by norm_num)).2
    rw [h (by rw [hsimp]; norm_num [MAX_ANNUAL_INCIDENTS]), hsimp]
    norm_num

/-! Helper lemmas for the loss-exceedance curve. -/

theorem sum_drop_le (l : List ℕ) (k : ℕ) : (l.drop k).sum ≤ l.sum := by
  conv_rhs => rw [← List.take_append_drop k l]
  rw [List.sum_append]
  omega

theorem sum_drop_mono (l : List ℕ) {i j : ℕ} (h : i ≤ j) :
    (l.drop j).sum ≤ (l.drop i).sum := by
  have hd : l.drop j = (l.drop i).drop (j - i) := by
    rw [List.drop_drop]
    congr 1
    omega
  rw [hd]
  exact sum_drop_le (l.drop i) (j - i)

theorem getD_map_range (m : ℕ) (f : ℕ → ℚ) (j : ℕ) :
    ((List.range m).map f).getD j 0 = if j < m then f j else 0 := by
  by_cases h : j < m
  · rw [if_pos h, List.getD_eq_getElem?_getD, List.getElem?_map,
      List.getElem?_range h]
    rfl
  · rw [if_neg h, List.getD_eq_getElem?_getD, List.getElem?_map]
    have hn : (List.range m)[j]? = none := by
      rw [List.getElem?_eq_none_iff]
      simpa using Nat.le_of_not_lt h
    rw [hn]
    rfl

set_option maxRecDepth 8000 in
/-- C9: the loss-exceedance curve — the reverse cumulative sum of the cost
histogram as a percentage of total trials, evaluated at each bin's lower
edge — is monotonically non-increasing along the cost axis: for any sample
set, the entry at position i + k never exceeds the entry at position i
(positions past the end read as 0 via getD). -/
theorem C9_lec_nonincreasing (samples : List ℚ) (i k : ℕ) :
    (loss_exceedance_curve samples).getD (i + k) 0
      ≤ (loss_exceedance_curve samples).getD i 0 := by
  unfold loss_exceedance_curve
  rw [getD_map_range, getD_map_range]
  have hnn : ∀ j : ℕ,
      (0 : ℚ) ≤ ((((npHistogram samples LEC_PRECISION).drop j).sum : ℚ) * 100
        / samples.length) := by
    intro j
    positivity
  by_cases h1 : i + k < (npHistogram samples LEC_PRECISION).length
  · have h2 : i < (npHistogram samples LEC_PRECISION).length := by omega
    rw [if_pos h1, if_pos h2]
    rcases Nat.eq_zero_or_pos samples.length with hn | hn
    · simp [hn]
    · have hnq : (0 : ℚ) < samples.length := by exact_mod_cast hn
      rw [div_le_div_iff_of_pos_right hnq]
      have hsum : (((npHistogram samples LEC_PRECISION).drop (i + k)).sum : ℚ)
          ≤ (((npHistogram samples LEC_PRECISION).drop i).sum : ℚ) := by
        exact_mod_cast sum_drop_mono _ (Nat.le_add_right i k)
      nlinarith
  · rw [if_neg h1]
    by_cases h2 : i < (npHistogram samples LEC_PRECISION).length
    · rw [if_pos h2]
      exact hnn i
    · rw [if_neg h2]
